import Mathlib

/-!
Shallow embedding of `src/main.rs` (Cornell-box demo: light-intensity slider,
grid of ceiling lights, change-gated intensity applier, FPS label).
`f32` values are modelled over `ℚ`; the arithmetic the claims mention
(clamping, linear interpolation, grid spacing) is exact there.
-/

namespace CornellBox

/-- Rust `f32::clamp(lo, hi)`: `if self < lo { lo } else if self > hi { hi } else { self }`. -/
def rclamp (v lo hi : ℚ) : ℚ :=
  if v < lo then lo else if v > hi then hi else v

-- ------------ Tunables (src/main.rs lines 10-41) ---------------------------
def ROOM_H : ℚ := 2
def PANEL_W : ℚ := 7/10
def PANEL_D : ℚ := 7/10
def GRID : Nat := 2
def BASE_CENTER_INTENSITY : ℚ := 4000
def BASE_OTHER_INTENSITY : ℚ := 2000
def SLIDER_WIDTH_PX : ℚ := 340
def SLIDER_HEIGHT_PX : ℚ := 14
def SLIDER_KNOB_SIZE_PX : ℚ := 18
def SLIDER_BOTTOM_MARGIN_PX : ℚ := 14
def SLIDER_GRAB_EXTRA_Y_PX : ℚ := 28
def LIGHT_RANGE : ℚ := 30
def LIGHT_RADIUS : ℚ := 1/4
/-- `Color::srgb(1.0, 0.95, 0.8)` as an rgb triple. -/
def LIGHT_COLOR : ℚ × ℚ × ℚ := (1, 19/20, 4/5)

-- ------------ LightControl resource ----------------------------------------

/-- `struct LightControl { value, min_scale, max_scale }`. -/
structure LightControl where
  value : ℚ
  min_scale : ℚ
  max_scale : ℚ
deriving DecidableEq, Repr

/-- `LightControl::current_scales`: linear interpolation of the clamped value. -/
def LightControl.current_scales (c : LightControl) : ℚ × ℚ :=
  let s := c.min_scale + (c.max_scale - c.min_scale) * rclamp c.value 0 1
  (s, s)

/-- `LightControl { value: 0.25, min_scale: 0.0, max_scale: 14.0 }` inserted in `main`. -/
def initialLightControl : LightControl := ⟨1/4, 0, 14⟩

-- ------------ Slider geometry and input ------------------------------------

/-- `struct SliderDrag { active: bool }`. -/
structure SliderDrag where
  active : Bool
deriving DecidableEq, Repr

/-- The primary window as `slider_input` reads it: size and optional cursor
position (origin top-left, in pixels). -/
structure Window where
  width : ℚ
  height : ℚ
  cursor : Option (ℚ × ℚ)
deriving DecidableEq, Repr

/-- Host input state for one frame of `slider_input`: the primary window (when
one exists) and the left-mouse-button edge/hold flags. -/
structure FrameInput where
  window : Option Window
  pressed : Bool
  just_pressed : Bool
  just_released : Bool
deriving DecidableEq, Repr

def track_left (w : ℚ) : ℚ := w * (1/2) - SLIDER_WIDTH_PX * (1/2)
def track_right (w : ℚ) : ℚ := w * (1/2) + SLIDER_WIDTH_PX * (1/2)
def track_bottom_y (h : ℚ) : ℚ := h - SLIDER_BOTTOM_MARGIN_PX
def track_top_y (h : ℚ) : ℚ := h - (SLIDER_BOTTOM_MARGIN_PX + SLIDER_HEIGHT_PX + SLIDER_GRAB_EXTRA_Y_PX)

/-- The slider hit region tested by `slider_input` (visible track widened
vertically by the grab allowance). -/
def insideHit (w h : ℚ) (c : ℚ × ℚ) : Prop :=
  (c.1 ≥ track_left w ∧ c.1 ≤ track_right w) ∧
  (c.2 ≥ track_top_y h ∧ c.2 ≤ track_bottom_y h)

instance (w h : ℚ) (c : ℚ × ℚ) : Decidable (insideHit w h c) := by
  unfold insideHit; infer_instance

/-- The `slider_input` system of `src/main.rs` (lines 302-334) as a step
function on `(LightControl, SliderDrag)`. -/
def slider_input (inp : FrameInput) (ctl : LightControl) (drag : SliderDrag) :
    LightControl × SliderDrag :=
  match inp.window with
  | none => (ctl, drag)
  | some window =>
    match window.cursor with
    | none => if !inp.pressed then (ctl, ⟨false⟩) else (ctl, drag)
    | some cursor =>
      let w := window.width
      let h := window.height
      let inside := insideHit w h cursor
      let drag1 : SliderDrag :=
        if inp.just_pressed then ⟨decide inside⟩
        else if inp.just_released then ⟨false⟩
        else drag
      if drag1.active then
        let v := rclamp ((cursor.1 - track_left w) / (track_right w - track_left w)) 0 1
        ({ ctl with value := v }, drag1)
      else (ctl, drag1)

-- ------------ Multi-frame runs ---------------------------------------------

/-- One frame of host input with a consistent button history: `pressed` is the
button state during the frame. -/
structure Frame where
  window : Option Window
  pressed : Bool
deriving DecidableEq, Repr

/-- Derive the edge flags the way the host input store does: `just_pressed`
fires when `pressed` rises, `just_released` when it falls. -/
def mkInput (prev : Bool) (f : Frame) : FrameInput :=
  ⟨f.window, f.pressed, f.pressed && !prev, !f.pressed && prev⟩

structure AppState where
  ctl : LightControl
  drag : SliderDrag
  prev_pressed : Bool
deriving DecidableEq, Repr

def stepFrame (s : AppState) (f : Frame) : AppState :=
  let r := slider_input (mkInput s.prev_pressed f) s.ctl s.drag
  ⟨r.1, r.2, f.pressed⟩

def runFrames (s : AppState) (fs : List Frame) : AppState := fs.foldl stepFrame s

/-- App start: control at 0.25, `SliderDrag::default()` (inactive), button up. -/
def initState : AppState := ⟨initialLightControl, ⟨false⟩, false⟩

-- ------------ Ceiling lights (setup_camera_and_scene, lines 162-194) -------

/-- The `PointLight` fields the source sets (plus intensity). -/
structure PointLight where
  intensity : ℚ
  range : ℚ
  radius : ℚ
  color : ℚ × ℚ × ℚ
  shadows_enabled : Bool
deriving DecidableEq, Repr

/-- `struct CeilingLight { center: bool }`. -/
structure CeilingLight where
  center : Bool
deriving DecidableEq, Repr

/-- One spawned grid light: its tag, its `PointLight`, and its transform
translation. -/
structure SpawnedLight where
  tag : CeilingLight
  light : PointLight
  pos : ℚ × ℚ × ℚ
deriving DecidableEq, Repr

def step_x : ℚ := if GRID > 1 then PANEL_W / ((GRID : ℚ) - 1) else 0
def step_z : ℚ := if GRID > 1 then PANEL_D / ((GRID : ℚ) - 1) else 0
def start_x : ℚ := -PANEL_W * (1/2)
def start_z : ℚ := -PANEL_D * (1/2)
def light_y : ℚ := ROOM_H - 3/25

/-- The grid-light spawning loop of `setup_camera_and_scene`, in loop order
(`ix` outer, `iz` inner). -/
def spawn_lights (light_ctl : LightControl) : List SpawnedLight :=
  let scale := light_ctl.current_scales.1
  let cur_center := BASE_CENTER_INTENSITY * scale
  let cur_other := BASE_OTHER_INTENSITY * scale
  (List.range GRID).flatMap fun ix =>
    (List.range GRID).map fun iz =>
      let x := start_x + (ix : ℚ) * step_x
      let z := start_z + (iz : ℚ) * step_z
      let is_center := ix == GRID / 2 && iz == GRID / 2
      { tag := ⟨is_center⟩
        light :=
          { intensity := if is_center then cur_center else cur_other
            range := LIGHT_RANGE
            radius := LIGHT_RADIUS
            color := LIGHT_COLOR
            shadows_enabled := true }
        pos := (x, light_y, z) }

-- ------------ apply_intensity_to_scene (lines 336-346) ---------------------

/-- The body of `apply_intensity_to_scene` after the change gate: recompute
every ceiling light's intensity from the control. -/
def recompute_intensities (ctl : LightControl) (q : List SpawnedLight) :
    List SpawnedLight :=
  let scale_center := ctl.current_scales.1
  let scale_other := ctl.current_scales.2
  q.map fun s =>
    if s.tag.center then
      { s with light := { s.light with intensity := BASE_CENTER_INTENSITY * scale_center } }
    else
      { s with light := { s.light with intensity := BASE_OTHER_INTENSITY * scale_other } }

/-- `apply_intensity_to_scene`: `if !ctl.is_changed() { return; }` then the
recomputation. `changed` is the host's change-detection flag for the
`LightControl` resource. -/
def apply_intensity_to_scene (changed : Bool) (ctl : LightControl)
    (q : List SpawnedLight) : List SpawnedLight :=
  if !changed then q else recompute_intensities ctl q

-- ------------ slider_visual (lines 348-352) --------------------------------

/-- Knob offset written by `slider_visual`: computed from the raw stored
value, with no clamp of its own. -/
def knob_left (value : ℚ) : ℚ := (SLIDER_WIDTH_PX - SLIDER_KNOB_SIZE_PX) * value

/-- `slider_visual` as a function of the control and the knob node's current
left offset: change-gated, otherwise writes `knob_left`. -/
def slider_visual (changed : Bool) (ctl : LightControl) (left : ℚ) : ℚ :=
  if !changed then left else knob_left ctl.value

/-- What the spec's sentence for C2 asserts the knob offset to be: the offset
computed from the clamped value. Written from the spec, for comparison with
`knob_left`. -/
def knob_left_spec (value : ℚ) : ℚ :=
  (SLIDER_WIDTH_PX - SLIDER_KNOB_SIZE_PX) * rclamp value 0 1

-- ------------ update_fps_ui (lines 246-254) --------------------------------

/-- Round to the nearest integer, ties to even — the rounding Rust's float
formatting applies to the exact decimal value. -/
def roundTiesEven (q : ℚ) : ℤ :=
  let f := ⌊q⌋
  let r := q - (f : ℚ)
  if r < 1/2 then f
  else if 1/2 < r then f + 1
  else if f % 2 = 0 then f else f + 1

/-- `format!("{value:.1}")`: the value rendered with exactly one digit after
the decimal point. -/
def fmt1 (v : ℚ) : String :=
  let n := roundTiesEven (10 * v)
  let sign := if n < 0 then "-" else ""
  sign ++ toString (n.natAbs / 10) ++ "." ++ toString (n.natAbs % 10)

/-- `update_fps_ui`: `diag` is `none` when the FPS diagnostic is absent from
the store, `some none` when it has no smoothed sample, `some (some v)` when a
smoothed sample `v` exists; `span` is the label's current text. -/
def update_fps_ui (diag : Option (Option ℚ)) (span : String) : String :=
  match diag with
  | some fps =>
    match fps with
    | some value => fmt1 value
    | none => span
  | none => span

-- ====================== Theorems ===========================================

-- Shared facts about the clamp.

lemma rclamp_nonneg (v : ℚ) : 0 ≤ rclamp v 0 1 := by
  unfold rclamp; split_ifs <;> linarith

lemma rclamp_le_one (v : ℚ) : rclamp v 0 1 ≤ 1 := by
  unfold rclamp; split_ifs <;> linarith

lemma rclamp_of_mem (v : ℚ) (h0 : 0 ≤ v) (h1 : v ≤ 1) : rclamp v 0 1 = v := by
  unfold rclamp; split_ifs <;> linarith

lemma rclamp_of_one_le (v : ℚ) (h : 1 ≤ v) : rclamp v 0 1 = 1 := by
  unfold rclamp; split_ifs <;> linarith

lemma rclamp_of_le_zero (v : ℚ) (h : v ≤ 0) : rclamp v 0 1 = 0 := by
  unfold rclamp; split_ifs <;> linarith

lemma rclamp_idem (v : ℚ) : rclamp (rclamp v 0 1) 0 1 = rclamp v 0 1 := by
  unfold rclamp; split_ifs <;> linarith

lemma current_scales_fst (c : LightControl) :
    c.current_scales.1 = c.min_scale + (c.max_scale - c.min_scale) * rclamp c.value 0 1 := rfl

/-- C1: the derived multiplier is `min_scale + (max_scale - min_scale) *
clamp(value, 0, 1)` for every control value and bounds, and with the
program's bounds (`min_scale = 0`, `max_scale = 14`) it equals `14 * v` for
every `v ∈ [0, 1]`; in particular it is `0` at `v = 0` and `14` at `v = 1`. -/
theorem C1_multiplier_linear_interpolation :
    (∀ c : LightControl,
        c.current_scales.1 = c.min_scale + (c.max_scale - c.min_scale) * rclamp c.value 0 1)
    ∧ (∀ v : ℚ, 0 ≤ v → v ≤ 1 →
        ({ initialLightControl with value := v } : LightControl).current_scales.1 = 14 * v)
    ∧ ({ initialLightControl with value := 0 } : LightControl).current_scales.1 = 0
    ∧ ({ initialLightControl with value := 1 } : LightControl).current_scales.1 = 14 := by
  refine ⟨fun c => rfl, fun v h0 h1 => ?_, ?_, ?_⟩
  · rw [current_scales_fst]
    simp only [initialLightControl]
    rw [rclamp_of_mem v h0 h1]; ring
  · norm_num [current_scales_fst, initialLightControl, rclamp]
  · norm_num [current_scales_fst, initialLightControl, rclamp]

/-- Witness for C1 at `v = 1/2`: the hypotheses `0 ≤ 1/2` and `1/2 ≤ 1` hold
and the multiplier there is `14 * (1/2) = 7`. -/
theorem C1_multiplier_witness :
    (0 : ℚ) ≤ 1/2 ∧ (1/2 : ℚ) ≤ 1 ∧
    ({ initialLightControl with value := 1/2 } : LightControl).current_scales.1 = 14 * (1/2) :=
  ⟨by norm_num, by norm_num,
    C1_multiplier_linear_interpolation.2.1 (1/2) (by norm_num) (by norm_num)⟩

/-- C2 as stated is false at stored value `-0.5`: the slider-knob offset is a
downstream use of the value, yet `slider_visual` computes it from the raw
value (giving `-161`), not from the clamped value (which would give `0`). -/
theorem C2_counterexample_knob_not_clamped :
    slider_visual true { initialLightControl with value := -1/2 } 0 = -161
    ∧ knob_left_spec (-1/2) = 0
    ∧ slider_visual true { initialLightControl with value := -1/2 } 0 ≠ knob_left_spec (-1/2) := by
  norm_num [slider_visual, knob_left, knob_left_spec, rclamp,
    SLIDER_WIDTH_PX, SLIDER_KNOB_SIZE_PX]

/-- C2 amended: the light-intensity multiplier uses the clamped value
(`-0.5` behaves as `0` and `1.7` behaves as `1` there, for any bounds), but
the slider-knob offset is computed from the raw stored value with no clamp of
its own. -/
theorem C2_amended_clamp_on_intensity_path :
    (∀ c : LightControl,
        c.current_scales = ({ c with value := rclamp c.value 0 1 } : LightControl).current_scales)
    ∧ (∀ mn mx : ℚ,
        (LightControl.mk (-1/2) mn mx).current_scales = (LightControl.mk 0 mn mx).current_scales
        ∧ (LightControl.mk (17/10) mn mx).current_scales = (LightControl.mk 1 mn mx).current_scales)
    ∧ (∀ (ctl : LightControl) (left : ℚ),
        slider_visual true ctl left = (SLIDER_WIDTH_PX - SLIDER_KNOB_SIZE_PX) * ctl.value) := by
  refine ⟨fun c => ?_, fun mn mx => ⟨?_, ?_⟩, fun ctl left => rfl⟩
  · simp [LightControl.current_scales, rclamp_idem]
  · norm_num [LightControl.current_scales, rclamp]
  · norm_num [LightControl.current_scales, rclamp]

/-- C4: with the 2x2 grid and 0.70 x 0.70 panel, exactly four lights are
spawned, at local `(x, z)` offsets `(±0.35, ±0.35)`, and exactly one carries
`center = true` — the `ix = GRID/2 = 1`, `iz = GRID/2 = 1` cell at offset
`(0.35, 0.35)`, not the `(0, 0)` cell. -/
theorem C4_grid_and_center_cell :
    (spawn_lights initialLightControl).length = 4
    ∧ (spawn_lights initialLightControl).map (fun l => (l.pos.1, l.pos.2.2)) =
        [(-7/20, -7/20), (-7/20, 7/20), (7/20, -7/20), (7/20, 7/20)]
    ∧ (spawn_lights initialLightControl).map (fun l => l.tag.center) =
        [false, false, false, true]
    ∧ ((spawn_lights initialLightControl).filter (fun l => l.tag.center)).map
        (fun l => (l.pos.1, l.pos.2.2)) = [(7/20, 7/20)]
    ∧ GRID / 2 = 1 := by
  refine ⟨rfl, ?_, ?_, ?_, rfl⟩ <;>
    norm_num [spawn_lights, GRID, List.range_succ, start_x, start_z, step_x, step_z,
      PANEL_W, PANEL_D]

/-- C7: the applier is change-gated (a call with an unchanged control is the
identity on the scene), recomputing is idempotent at a fixed control (so the
gate is only an optimization: an unconditional second recomputation changes
nothing), and the recomputation writes `4000 * multiplier` into the center
light and `2000 * multiplier` into every other light. -/
theorem C7_applier_idempotent_and_gated :
    ∀ (ctl : LightControl) (q : List SpawnedLight),
      apply_intensity_to_scene false ctl q = q
      ∧ apply_intensity_to_scene true ctl q = recompute_intensities ctl q
      ∧ recompute_intensities ctl (recompute_intensities ctl q) = recompute_intensities ctl q
      ∧ (recompute_intensities ctl q).map (fun s => s.light.intensity)
          = q.map (fun s => (if s.tag.center then 4000 else 2000) * ctl.current_scales.1) := by
  intro ctl q
  refine ⟨rfl, rfl, ?_, ?_⟩
  · induction q with
    | nil => rfl
    | cons a q ih =>
      by_cases h : a.tag.center = true <;>
        simp [recompute_intensities, h] <;>
        simpa [recompute_intensities] using ih
  · induction q with
    | nil => rfl
    | cons a q ih =>
      by_cases h : a.tag.center = true <;>
        simp [recompute_intensities, h, BASE_CENTER_INTENSITY, BASE_OTHER_INTENSITY,
          LightControl.current_scales] <;>
        simpa [recompute_intensities] using ih

/-- C10: every invocation of the applier leaves each light's tag, position,
range, radius, color and shadow flag untouched (only the intensity field can
change), and `current_scales` returns the same multiplier in both components
of its pair. -/
theorem C10_only_intensity_modified :
    ∀ (changed : Bool) (ctl : LightControl) (q : List SpawnedLight),
      (apply_intensity_to_scene changed ctl q).map
          (fun s => (s.tag, s.pos, s.light.range, s.light.radius, s.light.color,
            s.light.shadows_enabled))
        = q.map (fun s => (s.tag, s.pos, s.light.range, s.light.radius, s.light.color,
            s.light.shadows_enabled))
      ∧ ctl.current_scales.1 = ctl.current_scales.2 := by
  intro changed ctl q
  refine ⟨?_, rfl⟩
  cases changed with
  | false => rfl
  | true =>
    show (recompute_intensities ctl q).map _ = _
    induction q with
    | nil => rfl
    | cons a q ih =>
      by_cases h : a.tag.center = true <;>
        simp [recompute_intensities, h] <;>
        simpa [recompute_intensities] using ih

/-- C8: when a smoothed FPS sample `v` is available the label is set to `v`
formatted with exactly one digit after the decimal point; when the sample or
the whole diagnostic is absent the label text is left unchanged. -/
theorem C8_fps_label_update :
    ∀ (v : ℚ) (span : String),
      update_fps_ui (some (some v)) span = fmt1 v
      ∧ update_fps_ui (some none) span = span
      ∧ update_fps_ui none span = span
      ∧ ∃ (pre : String) (d : Nat),
          fmt1 v = pre ++ "." ++ toString d ∧ d < 10 := by
  intro v span
  refine ⟨rfl, rfl, rfl, ?_⟩
  refine ⟨(if roundTiesEven (10 * v) < 0 then "-" else "")
      ++ toString ((roundTiesEven (10 * v)).natAbs / 10),
    (roundTiesEven (10 * v)).natAbs % 10, ?_, Nat.mod_lt _ (by norm_num)⟩
  simp [fmt1, String.append_assoc]

-- Unfolding facts for `slider_input`.

lemma track_width_eq (w : ℚ) : track_right w - track_left w = SLIDER_WIDTH_PX := by
  unfold track_right track_left; ring

/-- The drag flag `slider_input` computes after the press/release edges of
the current frame. -/
def dragAfterEdges (inside jp jr : Bool) (drag : SliderDrag) : SliderDrag :=
  if jp then ⟨inside⟩ else if jr then ⟨false⟩ else drag

lemma slider_input_some (wd ht : ℚ) (c : ℚ × ℚ) (p jp jr : Bool)
    (ctl : LightControl) (drag : SliderDrag) :
    slider_input ⟨some ⟨wd, ht, some c⟩, p, jp, jr⟩ ctl drag =
      (if (dragAfterEdges (decide (insideHit wd ht c)) jp jr drag).active then
        ({ ctl with value := rclamp ((c.1 - track_left wd) / (track_right wd - track_left wd)) 0 1 },
          dragAfterEdges (decide (insideHit wd ht c)) jp jr drag)
      else (ctl, dragAfterEdges (decide (insideHit wd ht c)) jp jr drag)) := rfl

lemma slider_input_inactive_keeps_ctl (inp : FrameInput) (ctl : LightControl)
    (drag : SliderDrag) (h : (slider_input inp ctl drag).2.active = false) :
    (slider_input inp ctl drag).1 = ctl := by
  obtain ⟨ow, p, jp, jr⟩ := inp
  cases ow with
  | none => rfl
  | some win =>
    obtain ⟨wd, ht, cur⟩ := win
    cases cur with
    | none =>
      show (if !p then (ctl, SliderDrag.mk false) else (ctl, drag)).1 = ctl
      split <;> rfl
    | some c =>
      rw [slider_input_some] at h ⊢
      by_cases hval : (dragAfterEdges (decide (insideHit wd ht c)) jp jr drag).active = true
      · rw [if_pos hval] at h; simp only at h; rw [h] at hval; exact absurd hval (by simp)
      · rw [if_neg hval]

lemma slider_input_active_value (wd ht : ℚ) (c : ℚ × ℚ) (p jp jr : Bool)
    (ctl : LightControl) (drag : SliderDrag)
    (h : (slider_input ⟨some ⟨wd, ht, some c⟩, p, jp, jr⟩ ctl drag).2.active = true) :
    (slider_input ⟨some ⟨wd, ht, some c⟩, p, jp, jr⟩ ctl drag).1.value
      = rclamp ((c.1 - track_left wd) / SLIDER_WIDTH_PX) 0 1 := by
  rw [slider_input_some] at h ⊢
  by_cases hval : (dragAfterEdges (decide (insideHit wd ht c)) jp jr drag).active = true
  · rw [if_pos hval]; simp only [track_width_eq]
  · rw [if_neg hval] at h; simp only at h; exact absurd h hval

/-- C3: on a frame with a window and a cursor, whenever the drag comes out
active the stored value is set to `clamp((cursor.x - track_left) /
track_width, 0, 1)`; at or past the right track edge that is `1`, at or past
the left edge it is `0`; on a release frame the drag is deactivated and the
control is untouched, and on any frame whose resulting drag is inactive the
control is untouched. -/
theorem C3_drag_sets_clamped_value :
    ∀ (wd ht : ℚ) (c : ℚ × ℚ) (p jp jr : Bool) (ctl : LightControl) (drag : SliderDrag),
      ((slider_input ⟨some ⟨wd, ht, some c⟩, p, jp, jr⟩ ctl drag).2.active = true →
        (slider_input ⟨some ⟨wd, ht, some c⟩, p, jp, jr⟩ ctl drag).1.value
          = rclamp ((c.1 - track_left wd) / SLIDER_WIDTH_PX) 0 1)
      ∧ (track_right wd ≤ c.1 →
          (slider_input ⟨some ⟨wd, ht, some c⟩, p, jp, jr⟩ ctl drag).2.active = true →
          (slider_input ⟨some ⟨wd, ht, some c⟩, p, jp, jr⟩ ctl drag).1.value = 1)
      ∧ (c.1 ≤ track_left wd →
          (slider_input ⟨some ⟨wd, ht, some c⟩, p, jp, jr⟩ ctl drag).2.active = true →
          (slider_input ⟨some ⟨wd, ht, some c⟩, p, jp, jr⟩ ctl drag).1.value = 0)
      ∧ (jp = false → jr = true →
          (slider_input ⟨some ⟨wd, ht, some c⟩, p, jp, jr⟩ ctl drag).2.active = false
          ∧ (slider_input ⟨some ⟨wd, ht, some c⟩, p, jp, jr⟩ ctl drag).1 = ctl)
      ∧ (∀ inp : FrameInput, (slider_input inp ctl drag).2.active = false →
          (slider_input inp ctl drag).1 = ctl) := by
  intro wd ht c p jp jr ctl drag
  refine ⟨slider_input_active_value wd ht c p jp jr ctl drag, ?_, ?_, ?_, ?_⟩
  · intro hx hact
    rw [slider_input_active_value wd ht c p jp jr ctl drag hact]
    have hw := track_width_eq wd
    have h1 : (1 : ℚ) ≤ (c.1 - track_left wd) / SLIDER_WIDTH_PX := by
      rw [le_div_iff₀ (by norm_num [SLIDER_WIDTH_PX] : (0:ℚ) < SLIDER_WIDTH_PX)]
      simp only [SLIDER_WIDTH_PX] at hw ⊢; linarith
    exact rclamp_of_one_le _ h1
  · intro hx hact
    rw [slider_input_active_value wd ht c p jp jr ctl drag hact]
    have h0 : (c.1 - track_left wd) / SLIDER_WIDTH_PX ≤ 0 :=
      div_nonpos_iff.mpr (Or.inr ⟨by linarith, by norm_num [SLIDER_WIDTH_PX]⟩)
    exact rclamp_of_le_zero _ h0
  · intro hjp hjr
    subst hjp; subst hjr
    rw [slider_input_some]
    simp [dragAfterEdges]
  · exact fun inp => slider_input_inactive_keeps_ctl inp ctl drag

/-- Witness for C3: a press at the track's right edge, inside the hit
region, activates the drag and sets the value to exactly `1`. -/
theorem C3_witness :
    (slider_input ⟨some ⟨1920, 1080, some (1130, 1050)⟩, true, true, false⟩
        initialLightControl ⟨false⟩).2.active = true
    ∧ (slider_input ⟨some ⟨1920, 1080, some (1130, 1050)⟩, true, true, false⟩
        initialLightControl ⟨false⟩).1.value = 1 := by
  have hin : insideHit 1920 1080 ((1130 : ℚ), (1050 : ℚ)) := by
    norm_num [insideHit, track_left, track_right, track_top_y, track_bottom_y,
      SLIDER_WIDTH_PX, SLIDER_HEIGHT_PX, SLIDER_BOTTOM_MARGIN_PX, SLIDER_GRAB_EXTRA_Y_PX]
  have hact : (slider_input ⟨some ⟨1920, 1080, some (1130, 1050)⟩, true, true, false⟩
      initialLightControl ⟨false⟩).2.active = true := by
    rw [slider_input_some]; simp [hin, dragAfterEdges]
  refine ⟨hact, ?_⟩
  exact (C3_drag_sets_clamped_value 1920 1080 (1130, 1050) true true false
      initialLightControl ⟨false⟩).2.1
    (by norm_num [track_right, SLIDER_WIDTH_PX]) hact

/-- C5: with the drag active, the button held and no edge event, a frame with
any cursor position updates the value from the x-coordinate alone (the hit
region plays no role and the y-coordinate is irrelevant) and keeps the drag
active; a held-button frame with no cursor position leaves everything
untouched, while a button-up frame with no cursor position clears the drag. -/
theorem C5_sticky_drag :
    (∀ (wd ht x y y2 : ℚ) (ctl : LightControl) (drag : SliderDrag),
        drag.active = true →
        slider_input ⟨some ⟨wd, ht, some (x, y)⟩, true, false, false⟩ ctl drag
          = ({ ctl with value := rclamp ((x - track_left wd) / SLIDER_WIDTH_PX) 0 1 }, drag)
        ∧ slider_input ⟨some ⟨wd, ht, some (x, y)⟩, true, false, false⟩ ctl drag
          = slider_input ⟨some ⟨wd, ht, some (x, y2)⟩, true, false, false⟩ ctl drag)
    ∧ (∀ (wd ht : ℚ) (p : Bool) (ctl : LightControl) (drag : SliderDrag),
        slider_input ⟨some ⟨wd, ht, none⟩, p, false, false⟩ ctl drag
          = (ctl, if p = true then drag else SliderDrag.mk false)) := by
  constructor
  · intro wd ht x y y2 ctl drag h
    have key : ∀ yy : ℚ,
        slider_input ⟨some ⟨wd, ht, some (x, yy)⟩, true, false, false⟩ ctl drag
          = ({ ctl with value := rclamp ((x - track_left wd) / SLIDER_WIDTH_PX) 0 1 }, drag) := by
      intro yy
      rw [slider_input_some]
      simp only [dragAfterEdges, Bool.false_eq_true, if_false, h, if_true, track_width_eq]
    exact ⟨key y, (key y).trans (key y2).symm⟩
  · intro wd ht p ctl drag
    cases p <;> rfl

/-- Witness for C5: with the drag active and the button held, a cursor at
x = 960 in a 1920-wide window sets the value to 1/2 whatever its
y-coordinate, and a held-button frame without a cursor changes nothing. -/
theorem C5_witness :
    SliderDrag.active ⟨true⟩ = true
    ∧ slider_input ⟨some ⟨1920, 1080, some (960, -500)⟩, true, false, false⟩
        initialLightControl ⟨true⟩ = ({ initialLightControl with value := 1/2 }, ⟨true⟩)
    ∧ slider_input ⟨some ⟨1920, 1080, none⟩, true, false, false⟩
        initialLightControl ⟨true⟩ = (initialLightControl, ⟨true⟩) := by
  refine ⟨rfl, ?_, ?_⟩
  · have h := (C5_sticky_drag.1 1920 1080 960 (-500) 7 initialLightControl ⟨true⟩ rfl).1
    rw [h]
    norm_num [rclamp, track_left, SLIDER_WIDTH_PX]
  · exact C5_sticky_drag.2 1920 1080 true initialLightControl ⟨true⟩

-- Reachable-state facts about multi-frame runs.

lemma slider_input_snd (wd ht : ℚ) (c : ℚ × ℚ) (p jp jr : Bool)
    (ctl : LightControl) (drag : SliderDrag) :
    (slider_input ⟨some ⟨wd, ht, some c⟩, p, jp, jr⟩ ctl drag).2
      = dragAfterEdges (decide (insideHit wd ht c)) jp jr drag := by
  rw [slider_input_some]; split <;> rfl

lemma slider_input_value_cases (inp : FrameInput) (ctl : LightControl) (drag : SliderDrag) :
    (slider_input inp ctl drag).1 = ctl
    ∨ ∃ x : ℚ, (slider_input inp ctl drag).1 = { ctl with value := rclamp x 0 1 } := by
  obtain ⟨ow, p, jp, jr⟩ := inp
  cases ow with
  | none => exact Or.inl rfl
  | some win =>
    obtain ⟨wd, ht, cur⟩ := win
    cases cur with
    | none =>
      left
      show (if !p then (ctl, SliderDrag.mk false) else (ctl, drag)).1 = ctl
      split <;> rfl
    | some c =>
      rw [slider_input_some]
      by_cases hval : (dragAfterEdges (decide (insideHit wd ht c)) jp jr drag).active = true
      · exact Or.inr ⟨_, by rw [if_pos hval]⟩
      · exact Or.inl (by rw [if_neg hval])

lemma runFrames_value_mem (fs : List Frame) :
    ∀ s : AppState, 0 ≤ s.ctl.value → s.ctl.value ≤ 1 →
      0 ≤ (runFrames s fs).ctl.value ∧ (runFrames s fs).ctl.value ≤ 1 := by
  induction fs with
  | nil => exact fun s h0 h1 => ⟨h0, h1⟩
  | cons f fs ih =>
    intro s h0 h1
    show 0 ≤ (runFrames (stepFrame s f) fs).ctl.value ∧ _
    rcases slider_input_value_cases (mkInput s.prev_pressed f) s.ctl s.drag with h | ⟨x, h⟩
    · exact ih (stepFrame s f) (by show 0 ≤ (slider_input _ _ _).1.value; rw [h]; exact h0)
        (by show (slider_input _ _ _).1.value ≤ 1; rw [h]; exact h1)
    · exact ih (stepFrame s f)
        (by show 0 ≤ (slider_input _ _ _).1.value; rw [h]; exact rclamp_nonneg x)
        (by show (slider_input _ _ _).1.value ≤ 1; rw [h]; exact rclamp_le_one x)

/-- C9: in every reachable state the stored control value lies in `[0, 1]`
(it starts at 0.25 and the one mutation in the program stores a clamped
number), so the knob offset `slider_visual` computes from the raw value still
lands in `[0, SLIDER_WIDTH_PX - SLIDER_KNOB_SIZE_PX]`. -/
theorem C9_value_always_in_unit_interval :
    ∀ fs : List Frame,
      initState.ctl.value = 1/4
      ∧ 0 ≤ (runFrames initState fs).ctl.value
      ∧ (runFrames initState fs).ctl.value ≤ 1
      ∧ 0 ≤ knob_left (runFrames initState fs).ctl.value
      ∧ knob_left (runFrames initState fs).ctl.value ≤ SLIDER_WIDTH_PX - SLIDER_KNOB_SIZE_PX := by
  intro fs
  obtain ⟨h0, h1⟩ := runFrames_value_mem fs initState
    (by norm_num [initState, initialLightControl]) (by norm_num [initState, initialLightControl])
  have hk : (0 : ℚ) ≤ SLIDER_WIDTH_PX - SLIDER_KNOB_SIZE_PX := by
    norm_num [SLIDER_WIDTH_PX, SLIDER_KNOB_SIZE_PX]
  refine ⟨rfl, h0, h1, mul_nonneg hk h0, ?_⟩
  calc knob_left (runFrames initState fs).ctl.value
      ≤ (SLIDER_WIDTH_PX - SLIDER_KNOB_SIZE_PX) * 1 := mul_le_mul_of_nonneg_left h1 hk
    _ = SLIDER_WIDTH_PX - SLIDER_KNOB_SIZE_PX := mul_one _

/-- A frame on which the button is down and the cursor sits inside the
slider's hit region. -/
def pressInsideFrame (f : Frame) : Prop :=
  f.pressed = true ∧ ∃ (w : Window) (c : ℚ × ℚ),
    f.window = some w ∧ w.cursor = some c ∧ insideHit w.width w.height c

lemma stepFrame_active (s : AppState) (f : Frame) (hw : f.window.isSome = true)
    (ih : s.drag.active = true → s.prev_pressed = true)
    (hact : (stepFrame s f).drag.active = true) :
    f.pressed = true ∧ (pressInsideFrame f ∨ s.drag.active = true) := by
  obtain ⟨ow, p⟩ := f
  obtain ⟨win, rfl⟩ := Option.isSome_iff_exists.mp hw
  obtain ⟨wd, ht, cur⟩ := win
  cases cur with
  | none =>
    cases p with
    | false => simp [stepFrame, slider_input, mkInput] at hact
    | true =>
      refine ⟨rfl, Or.inr ?_⟩
      exact hact
  | some c =>
    have hsnd : (stepFrame s ⟨some ⟨wd, ht, some c⟩, p⟩).drag
        = dragAfterEdges (decide (insideHit wd ht c))
            (p && !s.prev_pressed) (!p && s.prev_pressed) s.drag :=
      slider_input_snd wd ht c p (p && !s.prev_pressed) (!p && s.prev_pressed) s.ctl s.drag
    rw [hsnd] at hact
    unfold dragAfterEdges at hact
    by_cases hjp : (p && !s.prev_pressed) = true
    · rw [if_pos hjp] at hact
      have hins : insideHit wd ht c := of_decide_eq_true hact
      have hp : p = true := by revert hjp; cases p <;> simp
      exact ⟨hp, Or.inl ⟨hp, ⟨wd, ht, some c⟩, c, rfl, rfl, hins⟩⟩
    · rw [if_neg hjp] at hact
      by_cases hjr : (!p && s.prev_pressed) = true
      · rw [if_pos hjr] at hact; exact absurd hact (by simp)
      · rw [if_neg hjr] at hact
        have hprev := ih hact
        have hp : p = true := by
          cases p with
          | true => rfl
          | false => exact absurd (by simp [hprev]) hjr
        exact ⟨hp, Or.inr hact⟩

lemma runFrames_active_inv (fs : List Frame) :
    ∀ s : AppState, (∀ f ∈ fs, f.window.isSome = true) →
      (s.drag.active = true → s.prev_pressed = true) →
      (runFrames s fs).drag.active = true →
      (runFrames s fs).prev_pressed = true
        ∧ ((∃ f ∈ fs, pressInsideFrame f) ∨ s.drag.active = true) := by
  induction fs with
  | nil => exact fun s hw hinv hact => ⟨hinv hact, Or.inr hact⟩
  | cons f fs ih =>
    intro s hw hinv hact
    have hwf : f.window.isSome = true := hw f (by simp)
    have hinv' : (stepFrame s f).drag.active = true → (stepFrame s f).prev_pressed = true :=
      fun h => (stepFrame_active s f hwf hinv h).1
    have hrun := ih (stepFrame s f) (fun g hg => hw g (by simp [hg])) hinv' hact
    refine ⟨hrun.1, ?_⟩
    rcases hrun.2 with ⟨g, hg, hpin⟩ | hact'
    · exact Or.inl ⟨g, by simp [hg], hpin⟩
    · rcases (stepFrame_active s f hwf hinv hact').2 with hpin | hs
      · exact Or.inl ⟨f, by simp, hpin⟩
      · exact Or.inr hs

/-- C6: in any run from the program's initial state in which the primary
window is present on every frame, whenever the drag flag comes out true the
button was held on the most recent frame (so a frame with the button up
forces it false) and some frame of the run pressed with the cursor inside
the slider's hit region. -/
theorem C6_active_only_while_held :
    ∀ fs : List Frame, (∀ f ∈ fs, f.window.isSome = true) →
      (runFrames initState fs).drag.active = true →
      (runFrames initState fs).prev_pressed = true ∧ ∃ f ∈ fs, pressInsideFrame f := by
  intro fs hw hact
  have h := runFrames_active_inv fs initState hw (by intro h; simp [initState] at h) hact
  refine ⟨h.1, ?_⟩
  rcases h.2 with hfs | hact0
  · exact hfs
  · simp [initState] at hact0

/-- Witness for C6: a single frame pressing at (960, 1060) in a 1920x1080
window activates the drag, and the theorem's conclusions hold for it. -/
theorem C6_witness :
    (∀ f ∈ ([⟨some ⟨1920, 1080, some (960, 1060)⟩, true⟩] : List Frame),
      f.window.isSome = true)
    ∧ ((runFrames initState [⟨some ⟨1920, 1080, some (960, 1060)⟩, true⟩]).prev_pressed = true
        ∧ ∃ f ∈ ([⟨some ⟨1920, 1080, some (960, 1060)⟩, true⟩] : List Frame),
            pressInsideFrame f) := by
  have hin : insideHit 1920 1080 ((960 : ℚ), (1060 : ℚ)) := by
    norm_num [insideHit, track_left, track_right, track_top_y, track_bottom_y,
      SLIDER_WIDTH_PX, SLIDER_HEIGHT_PX, SLIDER_BOTTOM_MARGIN_PX, SLIDER_GRAB_EXTRA_Y_PX]
  have hact : (runFrames initState [⟨some ⟨1920, 1080, some (960, 1060)⟩, true⟩]).drag.active
      = true := by
    show (slider_input ⟨some ⟨1920, 1080, some (960, 1060)⟩, true, true, false⟩
      initialLightControl ⟨false⟩).2.active = true
    rw [slider_input_snd]
    simp [dragAfterEdges, hin]
  exact ⟨by simp, C6_active_only_while_held _ (by simp) hact⟩

end CornellBox
